import Mathlib

/-!
Verification of the brewing-calculation core of `brewymcbrewapp`.

The numeric formulas of `src/bin/calculations.py` and `src/app.py` are
embedded shallowly: Python floats are modelled by exact arithmetic, in `ℚ`
for the purely rational formulas (gravity, attenuation, calories, strike
water, scaling, water volumes) and in `ℝ` for the formulas involving
`exp` / fractional powers (IBU, SRM).  Python's `round(x, n)` rounds half
to even (banker's rounding); `roundHalfEven` / `pyRound` model it exactly.
-/

/-- Python's `round` to the nearest integer, rounding halves to even. -/
def roundHalfEven {α : Type} [LinearOrderedField α] [FloorRing α] (x : α) : ℤ :=
  if x - (⌊x⌋ : α) < 1 / 2 then ⌊x⌋
  else if 1 / 2 < x - (⌊x⌋ : α) then ⌊x⌋ + 1
  else if ⌊x⌋ % 2 = 0 then ⌊x⌋ else ⌊x⌋ + 1

/-- Python's `round(x, ndigits)`. -/
def pyRound {α : Type} [LinearOrderedField α] [FloorRing α] (ndigits : ℕ) (x : α) : α :=
  ((roundHalfEven (x * 10 ^ ndigits) : ℤ) : α) / 10 ^ ndigits

/-- Python's `int(x)`: truncation toward zero. -/
def truncToInt {α : Type} [LinearOrderedField α] [FloorRing α] (x : α) : ℤ :=
  if 0 ≤ x then ⌊x⌋ else ⌈x⌉

/-- A grain-bill entry (`{'weight': …, 'ppg': …, 'lovibond': …}` dictionaries). -/
structure Grain where
  weight : ℚ
  ppg : ℚ
  lovibond : ℚ
  deriving DecidableEq

/-- Error kind raised by a Python `ZeroDivisionError`. -/
inductive CalcError where
  | divideByZero
  deriving DecidableEq

namespace Calculations

/-- The `total_points` accumulation loop of `calculate_original_gravity`
(`src/bin/calculations.py`): `weight * ppg * 8.3454 * efficiency_factor`
summed over the grain bill. -/
def total_points (grain_bill : List Grain) (efficiency_factor : ℚ) : ℚ :=
  (grain_bill.map fun grain =>
    grain.weight * grain.ppg * 8.3454 * efficiency_factor).sum

/-- The unrounded original gravity of `calculate_original_gravity`:
`og = 1 + (total_points / batch_size) / 1000`. -/
def og_unrounded (grain_bill : List Grain) (batch_size efficiency : ℚ) : ℚ :=
  1 + (total_points grain_bill (efficiency / 100) / batch_size) / 1000

/-- Embedding of `calculate_original_gravity(grain_bill, batch_size, efficiency=75)` from
`src/bin/calculations.py`: returns `round(og, 3)`. -/
def calculate_original_gravity (grain_bill : List Grain) (batch_size : ℚ)
    (efficiency : ℚ := 75) : ℚ :=
  pyRound 3 (og_unrounded grain_bill batch_size efficiency)

/-- Embedding of `calculate_abv(og, fg)` from `src/bin/calculations.py`. -/
def calculate_abv (og fg : ℚ) : ℚ :=
  pyRound 2 ((og - fg) * 131.25)

/-- Embedding of `calculate_attenuation(og, fg)` from `src/bin/calculations.py`:
`((og - fg) / (og - 1.0)) * 100`, rounded to 1 decimal; a Python
`ZeroDivisionError` when `og - 1.0` is zero. -/
def calculate_attenuation (og fg : ℚ) : Except CalcError ℚ :=
  if og - 1.0 = 0 then .error .divideByZero
  else .ok (pyRound 1 (((og - fg) / (og - 1.0)) * 100))

/-- Embedding of `calculate_calories(og, fg, volume_oz=12)` from `src/bin/calculations.py`.
The function first calls `calculate_abv` and discards the result; then
`alcohol_calories = 1881.22 * fg * (og - fg) / (1.775 - og)`,
`carb_calories = 3550 * fg * ((0.1808 * og) + (0.8192 * fg) - 1.0004)`,
`total = (alcohol_calories + carb_calories) * (volume_oz / 12)`, and it
returns `int(round(total))`; dividing by `1.775 - og = 0` raises
`ZeroDivisionError`. -/
def calculate_calories (og fg : ℚ) (volume_oz : ℚ := 12) : Except CalcError ℤ :=
  if (1.775 : ℚ) - og = 0 then .error .divideByZero
  else
    let alcohol_calories := 1881.22 * fg * (og - fg) / (1.775 - og)
    let carb_calories := 3550 * fg * ((0.1808 * og) + (0.8192 * fg) - 1.0004)
    let total_calories := (alcohol_calories + carb_calories) * (volume_oz / 12)
    .ok (roundHalfEven total_calories)

/-- The result dictionary of `calculate_strike_water_temp`. -/
structure StrikeWaterResult where
  strike_temp : ℚ
  water_volume : ℚ
  deriving DecidableEq

/-- Embedding of `calculate_strike_water_temp(grain_weight, target_mash_temp, grain_temp=20,
water_ratio=3.0)` from `src/bin/calculations.py`. -/
def calculate_strike_water_temp (grain_weight target_mash_temp : ℚ)
    (grain_temp : ℚ := 20) (water_ratio : ℚ := 3.0) : StrikeWaterResult :=
  { strike_temp := pyRound 1 (target_mash_temp + (0.2 * (target_mash_temp - grain_temp)))
    water_volume := pyRound 1 (grain_weight * water_ratio) }

end Calculations

namespace App

/-- Embedding of `calculate_og(grain_bill, batch_size)` from `src/app.py`: the same
points formula with a hard-coded `0.70` efficiency factor. -/
def calculate_og (grain_bill : List Grain) (batch_size : ℚ) : ℚ :=
  let total_points := (grain_bill.map fun grain =>
    grain.weight * grain.ppg * 8.3454 * 0.70).sum
  pyRound 3 (1 + (total_points / batch_size) / 1000)

/-- The per-grain scaling of the recipe-scaler page of `src/app.py`:
`scaled_amount = original_amount * scale_factor` (grain weights). -/
def scaleGrain (scale_factor : ℚ) (grain : Grain) : Grain :=
  { grain with weight := grain.weight * scale_factor }

/-- Scaling a whole grain bill by one factor. -/
def scaleGrainBill (scale_factor : ℚ) (grain_bill : List Grain) : List Grain :=
  grain_bill.map (scaleGrain scale_factor)

/-- The unit strings offered by the "Other Ingredients" selectbox of the
recipe-scaler page (`src/app.py`). -/
inductive IngredientUnit where
  | g | kg | ml | L | tsp | tbsp | packet
  deriving DecidableEq

/-- An entry of `st.session_state.import_other_ingredients`. -/
structure OtherIngredient where
  name : String
  original_amount : ℚ
  unit : IngredientUnit
  should_scale : Bool

/-- The "Add" button of the Other Ingredients expander (`src/app.py`,
`recipe_scaler_page`): stores
`should_scale = other_scale and other_unit in ["g", "kg", "ml", "L"]`. -/
def addOtherIngredient (other_name : String) (other_amount : ℚ)
    (other_unit : IngredientUnit) (other_scale : Bool) : OtherIngredient :=
  { name := other_name
    original_amount := other_amount
    unit := other_unit
    should_scale :=
      other_scale && decide (other_unit ∈ [IngredientUnit.g, .kg, .ml, .L]) }

/-- Embedding of `import_recipe_to_builder` (`src/app.py`): an imported other ingredient
is stored with `'should_scale': True`, whatever its unit. -/
def importOtherIngredient (name : String) (amount : ℚ)
    (unit : IngredientUnit) : OtherIngredient :=
  { name := name, original_amount := amount, unit := unit, should_scale := true }

/-- The display loop of the Other Ingredients table (`src/app.py`,
`recipe_scaler_page`): `original_amount * scale_factor` when `should_scale`,
else the amount unchanged; shown as `round(current_scaled_amount, 3)`. -/
def scaledOtherAmount (ingredient : OtherIngredient) (scale_factor : ℚ) : ℚ :=
  pyRound 3 (if ingredient.should_scale
    then ingredient.original_amount * scale_factor
    else ingredient.original_amount)

/-- The outputs of the Water Volumes section of `recipe_scaler_page`
(`src/app.py`).  `grain_absorption` and `boil_off_volume` are only computed
(and displayed) on the non-degenerate branch; `insufficient_input_warning`
holds when the `st.warning("⚠️ Add grains …")` call is reached. -/
structure WaterVolumes where
  mash_volume : ℚ
  sparge_volume : ℚ
  final_volume : ℚ
  pre_boil_volume : ℚ
  grain_absorption : Option ℚ
  boil_off_volume : Option ℚ
  insufficient_input_warning : Prop

/-- The Water Volumes computation of `recipe_scaler_page` (`src/app.py`):
guarded by `if total_grain_weight > 0 and import_final_volume > 0`; on the
degenerate branch every volume is set to `0` (the final volume is kept when
positive) and the warning is shown only when `total_grain_weight == 0`. -/
def waterVolumes (total_grain_weight import_final_volume water_to_grist_ratio : ℚ) :
    WaterVolumes :=
  if 0 < total_grain_weight ∧ 0 < import_final_volume then
    { mash_volume := total_grain_weight * water_to_grist_ratio
      sparge_volume := max 0 ((import_final_volume + import_final_volume * 0.2)
        - (total_grain_weight * water_to_grist_ratio - total_grain_weight * 1.0))
      final_volume := import_final_volume
      pre_boil_volume := import_final_volume + import_final_volume * 0.2
      grain_absorption := some (total_grain_weight * 1.0)
      boil_off_volume := some (import_final_volume * 0.2)
      insufficient_input_warning := False }
  else
    { mash_volume := 0
      sparge_volume := 0
      final_volume := if 0 < import_final_volume then import_final_volume else 0
      pre_boil_volume := 0
      grain_absorption := none
      boil_off_volume := none
      insufficient_input_warning := total_grain_weight = 0 }

end App

/-- Spec-modelled formula (§4.1): attenuation = `((og−fg)/(og−1.0))×100`,
rounded to 1 decimal. -/
def Spec.attenuation (og fg : ℚ) : ℚ :=
  pyRound 1 (((og - fg) / (og - 1.0)) * 100)

/-- Spec-modelled formula (§4.1): `alcoholCalories = 1881.22×fg×(og−fg)/(1.775−og)`,
`carbCalories = 3550×fg×(0.1808×og + 0.8192×fg − 1.0004)`,
`total = (alcoholCalories+carbCalories)×(servingOunces/12)` (unrounded). -/
def Spec.caloriesTotal (og fg servingOunces : ℚ) : ℚ :=
  (1881.22 * fg * (og - fg) / (1.775 - og)
    + 3550 * fg * (0.1808 * og + 0.8192 * fg - 1.0004)) * (servingOunces / 12)

/-- Spec-modelled formula (§4.1): strike water,
`strikeTemp = targetMashTemp + 0.2×(targetMashTemp − grainTemp)`,
`waterVolume = grainWeight × waterRatio`, both rounded to 1 decimal. -/
def Spec.strikeWater (grainWeightKg targetMashTempC grainTempC waterRatioLPerKg : ℚ) :
    Calculations.StrikeWaterResult :=
  { strike_temp := pyRound 1 (targetMashTempC + 0.2 * (targetMashTempC - grainTempC))
    water_volume := pyRound 1 (grainWeightKg * waterRatioLPerKg) }

/-- A hop-schedule entry (`{'weight': …, 'alpha_acid': …, 'time': …}`). -/
structure Hop where
  weight : ℝ
  alpha_acid : ℝ
  time : ℝ

/-- A grain-bill entry as consumed by the SRM calculators
(`{'weight': …, 'lovibond': …}`). -/
structure SrmGrain where
  weight : ℝ
  lovibond : ℝ

noncomputable section

namespace Calculations

/-- The `bigness_factor` of `calculate_ibu_tinseth` (`src/bin/calculations.py`):
`1.65 * (0.000125 ** (og - 1.0))`. -/
def bigness_factor (og : ℝ) : ℝ :=
  1.65 * (0.000125 : ℝ) ^ (og - 1.0)

/-- The `boil_time_factor` of `calculate_ibu_tinseth`:
`(1 - np.exp(-0.04 * time)) / 4.15`. -/
def boil_time_factor (time : ℝ) : ℝ :=
  (1 - Real.exp (-0.04 * time)) / 4.15

/-- The `utilization` of `calculate_ibu_tinseth`. -/
def utilization (og time : ℝ) : ℝ :=
  bigness_factor og * boil_time_factor time

/-- One hop's term of the `calculate_ibu_tinseth` loop:
`(alpha_acid / 100) * weight * utilization * 10 / batch_size`. -/
def ibu_contribution (hop : Hop) (og batch_size : ℝ) : ℝ :=
  (hop.alpha_acid / 100) * hop.weight * utilization og hop.time * 10 / batch_size

/-- Embedding of `calculate_ibu_tinseth(hop_additions, og, batch_size)` from
`src/bin/calculations.py`: the summed contributions, rounded to 1 decimal. -/
def calculate_ibu_tinseth (hop_additions : List Hop) (og batch_size : ℝ) : ℝ :=
  pyRound 1 ((hop_additions.map fun hop => ibu_contribution hop og batch_size).sum)

/-- The MCU of `calculate_srm_morey` (`src/bin/calculations.py`):
`sum(weight * 2.20462 * lovibond) / (batch_size * 0.264172)`. -/
def morey_mcu (grain_bill : List SrmGrain) (batch_size : ℝ) : ℝ :=
  ((grain_bill.map fun grain => grain.weight * 2.20462 * grain.lovibond).sum)
    / (batch_size * 0.264172)

/-- Embedding of `calculate_srm_morey(grain_bill, batch_size)` from
`src/bin/calculations.py`: Morey's `1.4922 * (mcu ** 0.6859)`, rounded to
1 decimal. -/
def calculate_srm_morey (grain_bill : List SrmGrain) (batch_size : ℝ) : ℝ :=
  pyRound 1 (1.4922 * morey_mcu grain_bill batch_size ^ (0.6859 : ℝ))

end Calculations

namespace App

/-- The `utilization` of `calculate_ibu` (`src/app.py`): assigned as
`1.65 * (0.000125 ** (og - 1.0))` and then multiplied in place by
`(1 - np.exp(-0.04 * time)) / 4.15`. -/
def ibu_utilization (og time : ℝ) : ℝ :=
  (1.65 * (0.000125 : ℝ) ^ (og - 1.0)) * ((1 - Real.exp (-0.04 * time)) / 4.15)

/-- One hop's term of the `calculate_ibu` loop (`src/app.py`):
`(alpha_acid * weight * utilization * 7490) / batch_size`. -/
def ibu_contribution (hop : Hop) (og batch_size : ℝ) : ℝ :=
  (hop.alpha_acid * hop.weight * ibu_utilization og hop.time * 7490) / batch_size

/-- Embedding of `calculate_ibu(hop_additions, og, batch_size)` from `src/app.py`. -/
def calculate_ibu (hop_additions : List Hop) (og batch_size : ℝ) : ℝ :=
  pyRound 1 ((hop_additions.map fun hop => ibu_contribution hop og batch_size).sum)

/-- The MCU of `calculate_srm` (`src/app.py`):
`sum(weight * lovibond) / batch_size`, weights in kg, batch in litres. -/
def srm_mcu (grain_bill : List SrmGrain) (batch_size : ℝ) : ℝ :=
  ((grain_bill.map fun grain => grain.weight * grain.lovibond).sum) / batch_size

/-- Embedding of `calculate_srm(grain_bill, batch_size)` from `src/app.py`. -/
def calculate_srm (grain_bill : List SrmGrain) (batch_size : ℝ) : ℝ :=
  pyRound 1 (1.4922 * srm_mcu grain_bill batch_size ^ (0.6859 : ℝ))

end App

end

section RoundingLemmas

variable {α : Type} [LinearOrderedField α] [FloorRing α]

lemma roundHalfEven_eq_of_lt_half (x : α) (n : ℤ) (h1 : (n : α) ≤ x)
    (h2 : x < (n : α) + 1 / 2) : roundHalfEven x = n := by
  have hf : ⌊x⌋ = n := Int.floor_eq_iff.mpr ⟨h1, by linarith⟩
  unfold roundHalfEven
  rw [hf, if_pos (by linarith)]

lemma roundHalfEven_eq_of_half_lt (x : α) (n : ℤ) (h1 : (n : α) + 1 / 2 < x)
    (h2 : x < (n : α) + 1) : roundHalfEven x = n + 1 := by
  have hf : ⌊x⌋ = n := Int.floor_eq_iff.mpr ⟨by linarith, by linarith⟩
  unfold roundHalfEven
  rw [hf, if_neg (by linarith), if_pos (by linarith)]

lemma roundHalfEven_le (x : α) : (roundHalfEven x : α) ≤ x + 1 / 2 := by
  have h0 : (⌊x⌋ : α) ≤ x := Int.floor_le x
  have h1 : x < (⌊x⌋ : α) + 1 := Int.lt_floor_add_one x
  unfold roundHalfEven
  split_ifs <;> push_cast <;> linarith

lemma le_roundHalfEven (x : α) : x - 1 / 2 ≤ (roundHalfEven x : α) := by
  have h0 : (⌊x⌋ : α) ≤ x := Int.floor_le x
  have h1 : x < (⌊x⌋ : α) + 1 := Int.lt_floor_add_one x
  unfold roundHalfEven
  split_ifs <;> push_cast <;> linarith

lemma pyRound_eq_of_lt_half (ndigits : ℕ) (x : α) (n : ℤ)
    (h1 : (n : α) ≤ x * 10 ^ ndigits) (h2 : x * 10 ^ ndigits < (n : α) + 1 / 2) :
    pyRound ndigits x = (n : α) / 10 ^ ndigits := by
  unfold pyRound
  rw [roundHalfEven_eq_of_lt_half _ n h1 h2]

lemma pyRound_eq_of_half_lt (ndigits : ℕ) (x : α) (n : ℤ)
    (h1 : (n : α) + 1 / 2 < x * 10 ^ ndigits) (h2 : x * 10 ^ ndigits < (n : α) + 1) :
    pyRound ndigits x = ((n : α) + 1) / 10 ^ ndigits := by
  unfold pyRound
  rw [roundHalfEven_eq_of_half_lt _ n h1 h2]
  push_cast
  ring_nf

lemma pyRound_le (ndigits : ℕ) (x : α) :
    pyRound ndigits x ≤ x + 1 / 2 / 10 ^ ndigits := by
  have hp : (0 : α) < 10 ^ ndigits := by positivity
  have h := roundHalfEven_le (x * 10 ^ ndigits)
  unfold pyRound
  rw [div_le_iff₀ hp, add_mul, div_mul_cancel₀ _ (ne_of_gt hp)]
  linarith [h]

lemma le_pyRound (ndigits : ℕ) (x : α) :
    x - 1 / 2 / 10 ^ ndigits ≤ pyRound ndigits x := by
  have hp : (0 : α) < 10 ^ ndigits := by positivity
  have h := le_roundHalfEven (x * 10 ^ ndigits)
  unfold pyRound
  rw [le_div_iff₀ hp, sub_mul, div_mul_cancel₀ _ (ne_of_gt hp)]
  linarith [h]

end RoundingLemmas

section ScalingLemmas

/-- Scaling every grain weight by a factor scales the points sum by it. -/
lemma total_points_scale (grain_bill : List Grain) (factor efficiency_factor : ℚ) :
    Calculations.total_points (App.scaleGrainBill factor grain_bill) efficiency_factor
      = factor * Calculations.total_points grain_bill efficiency_factor := by
  induction grain_bill with
  | nil => simp [Calculations.total_points, App.scaleGrainBill]
  | cons g t ih =>
      simp only [Calculations.total_points, App.scaleGrainBill, App.scaleGrain,
        List.map_cons, List.sum_cons] at *
      rw [ih]
      ring

/-- The app's hard-coded `0.70` equals the library's `70 / 100` factor. -/
lemma app_points_eq_total_points_70 (grain_bill : List Grain) :
    (grain_bill.map fun grain => grain.weight * grain.ppg * 8.3454 * 0.70).sum
      = Calculations.total_points grain_bill (70 / 100) := by
  induction grain_bill with
  | nil => simp [Calculations.total_points]
  | cons g t ih =>
      simp only [Calculations.total_points, List.map_cons, List.sum_cons] at *
      rw [ih]
      norm_num

end ScalingLemmas

/-- C1: scale invariance of OG — for every grain bill with positive weights
and ppg, every positive batch size and every positive factor, computing OG
from the bill with every weight multiplied by the factor and the batch size
multiplied by the same factor gives, in exact arithmetic, exactly the same
unrounded OG, the same rounded OG, and hence agreement within 0.001 after
the terminal 3-decimal rounding. -/
theorem og_scale_invariance (grain_bill : List Grain) (batch_size factor efficiency : ℚ)
    (_hpos : ∀ g ∈ grain_bill, 0 < g.weight ∧ 0 < g.ppg)
    (_hB : 0 < batch_size) (hf : 0 < factor) :
    Calculations.og_unrounded (App.scaleGrainBill factor grain_bill)
        (batch_size * factor) efficiency
      = Calculations.og_unrounded grain_bill batch_size efficiency ∧
    Calculations.calculate_original_gravity (App.scaleGrainBill factor grain_bill)
        (batch_size * factor) efficiency
      = Calculations.calculate_original_gravity grain_bill batch_size efficiency ∧
    |Calculations.calculate_original_gravity (App.scaleGrainBill factor grain_bill)
        (batch_size * factor) efficiency
      - Calculations.calculate_original_gravity grain_bill batch_size efficiency| ≤ 0.001 := by
  have hraw : Calculations.og_unrounded (App.scaleGrainBill factor grain_bill)
      (batch_size * factor) efficiency
      = Calculations.og_unrounded grain_bill batch_size efficiency := by
    unfold Calculations.og_unrounded
    rw [total_points_scale]
    congr 1
    rw [mul_comm batch_size factor, mul_div_mul_left _ _ (ne_of_gt hf)]
  refine ⟨hraw, ?_, ?_⟩
  · unfold Calculations.calculate_original_gravity
    rw [hraw]
  · unfold Calculations.calculate_original_gravity
    rw [hraw, sub_self, abs_zero]
    norm_num

/-- C1 witness: the spec's concrete example — 5 kg at 37 ppg in 19 L,
scaled by 2 to 10 kg in 38 L, reproduces the same OG. -/
theorem og_scale_invariance_witness :
    (∀ g ∈ [({ weight := 5, ppg := 37, lovibond := 0 } : Grain)], 0 < g.weight ∧ 0 < g.ppg) ∧
    (0 : ℚ) < 19 ∧ (0 : ℚ) < 2 ∧
    Calculations.calculate_original_gravity
        (App.scaleGrainBill 2 [{ weight := 5, ppg := 37, lovibond := 0 }]) (19 * 2) 75
      = Calculations.calculate_original_gravity
          [{ weight := 5, ppg := 37, lovibond := 0 }] 19 75 :=
  have hpos : ∀ g ∈ [({ weight := 5, ppg := 37, lovibond := 0 } : Grain)],
      0 < g.weight ∧ 0 < g.ppg := by
    intro g hg
    rw [List.mem_singleton] at hg
    subst hg
    exact ⟨by norm_num, by norm_num⟩
  ⟨hpos, by norm_num, by norm_num,
    (og_scale_invariance _ 19 2 75 hpos (by norm_num) (by norm_num)).2.1⟩

/-- C10: the app-level OG calculator (hard-coded 0.70 factor) agrees with
the library OG calculator exactly when the latter is called with
efficiency 70, and differs from it at the library default efficiency 75
(1.057 versus 1.061 on the 5 kg / 37 ppg / 19 L bill). -/
theorem app_og_matches_library_only_at_70 :
    (∀ (grain_bill : List Grain) (batch_size : ℚ),
        App.calculate_og grain_bill batch_size
          = Calculations.calculate_original_gravity grain_bill batch_size 70) ∧
    App.calculate_og [{ weight := 5, ppg := 37, lovibond := 0 }] 19
      ≠ Calculations.calculate_original_gravity
          [{ weight := 5, ppg := 37, lovibond := 0 }] 19 75 := by
  constructor
  · intro grain_bill batch_size
    unfold App.calculate_og Calculations.calculate_original_gravity
      Calculations.og_unrounded
    rw [app_points_eq_total_points_70]
  · have e1 : App.calculate_og [{ weight := 5, ppg := 37, lovibond := 0 }] 19
        = 1057 / 10 ^ 3 := by
      unfold App.calculate_og
      simp only [List.map_cons, List.map_nil, List.sum_cons, List.sum_nil, add_zero]
      rw [pyRound_eq_of_half_lt 3 _ 1056 (by norm_num) (by norm_num)]
      norm_num
    have e2 : Calculations.calculate_original_gravity
        [{ weight := 5, ppg := 37, lovibond := 0 }] 19 75 = 1061 / 10 ^ 3 := by
      unfold Calculations.calculate_original_gravity Calculations.og_unrounded
        Calculations.total_points
      simp only [List.map_cons, List.map_nil, List.sum_cons, List.sum_nil, add_zero]
      rw [pyRound_eq_of_half_lt 3 _ 1060 (by norm_num) (by norm_num)]
      norm_num
    rw [e1, e2]
    norm_num

/-- C9: strike-water calculation — for every input the code returns exactly
the spec's formulas (strikeTemp = target + 0.2×(target − grainTemp),
waterVolume = grainWeight × ratio, each rounded to 1 decimal), and on the
spec's concrete example (4.5 kg, 67 °C target, 20 °C grain, ratio 3.0) it
returns strikeTemp 76.4 °C and waterVolume 13.5 L. -/
theorem strike_water_formula_and_example :
    (∀ (grain_weight target_mash_temp grain_temp water_ratio : ℚ),
        Calculations.calculate_strike_water_temp grain_weight target_mash_temp
            grain_temp water_ratio
          = Spec.strikeWater grain_weight target_mash_temp grain_temp water_ratio) ∧
    Calculations.calculate_strike_water_temp 4.5 67 20 3.0
      = { strike_temp := 76.4, water_volume := 13.5 } := by
  constructor
  · intro grain_weight target_mash_temp grain_temp water_ratio
    rfl
  · unfold Calculations.calculate_strike_water_temp
    rw [Calculations.StrikeWaterResult.mk.injEq]
    constructor
    · rw [pyRound_eq_of_lt_half 1 _ 764 (by norm_num) (by norm_num)]
      norm_num
    · rw [pyRound_eq_of_lt_half 1 _ 135 (by norm_num) (by norm_num)]
      norm_num

/-- C7: attenuation — for every og above 1.000 the code returns the spec's
formula ((og−fg)/(og−1.0))×100 rounded to 1 decimal, and at og = 1.000
exactly it fails with a DivideByZero error instead of returning a number. -/
theorem attenuation_formula_and_divide_by_zero (og fg : ℚ) (h : 1 < og) :
    Calculations.calculate_attenuation og fg = .ok (Spec.attenuation og fg) ∧
    Calculations.calculate_attenuation 1 fg = .error .divideByZero := by
  constructor
  · rw [Calculations.calculate_attenuation,
      if_neg (by intro h0; rw [sub_eq_zero] at h0; norm_num [h0] at h)]
    rfl
  · rw [Calculations.calculate_attenuation, if_pos (by norm_num)]

/-- C7 witness: attenuation at og 1.05, fg 1.01. -/
theorem attenuation_formula_witness :
    (1 : ℚ) < 1.05 ∧
    (Calculations.calculate_attenuation 1.05 1.01 = .ok (Spec.attenuation 1.05 1.01) ∧
     Calculations.calculate_attenuation 1 1.01 = .error .divideByZero) :=
  ⟨by norm_num, attenuation_formula_and_divide_by_zero 1.05 1.01 (by norm_num)⟩

/-- C6 (amended): calories — for every og other than 1.775 the code returns
the spec's calorie total rounded to the NEAREST integer (not truncated),
and at og = 1.775 exactly it fails with a DivideByZero error. -/
theorem calories_formula_and_divide_by_zero (og fg volume_oz : ℚ) (h : og ≠ 1.775) :
    Calculations.calculate_calories og fg volume_oz
      = .ok (roundHalfEven (Spec.caloriesTotal og fg volume_oz)) ∧
    Calculations.calculate_calories 1.775 fg volume_oz = .error .divideByZero := by
  constructor
  · rw [Calculations.calculate_calories,
      if_neg (fun h0 => h (by linarith [sub_eq_zero.mp h0]))]
    rfl
  · rw [Calculations.calculate_calories, if_pos (by norm_num)]

/-- C6 witness: calories at og 1.06, fg 1.01, 12 oz. -/
theorem calories_formula_witness :
    (1.06 : ℚ) ≠ 1.775 ∧
    (Calculations.calculate_calories 1.06 1.01 12
        = .ok (roundHalfEven (Spec.caloriesTotal 1.06 1.01 12)) ∧
     Calculations.calculate_calories 1.775 1.01 12 = .error .divideByZero) :=
  ⟨by norm_num, calories_formula_and_divide_by_zero 1.06 1.01 12 (by norm_num)⟩

/-- C6 counterexample: at og 1.06, fg 1.01 the exact calorie total is
≈199.703, so the code (`int(round(total))`, nearest-integer rounding) returns
200 while the claim's "truncated to an integer" gives 199. -/
theorem calories_not_truncated :
    Calculations.calculate_calories 1.06 1.01 12
      ≠ .ok (truncToInt (Spec.caloriesTotal 1.06 1.01 12)) := by
  have hL : Calculations.calculate_calories 1.06 1.01 12 = .ok 200 := by
    rw [Calculations.calculate_calories, if_neg (by norm_num)]
    simp only []
    rw [roundHalfEven_eq_of_half_lt _ 199 (by norm_num) (by norm_num)]
    norm_num
  have hR : truncToInt (Spec.caloriesTotal 1.06 1.01 12) = 199 := by
    rw [truncToInt, if_pos (by norm_num [Spec.caloriesTotal])]
    rw [Int.floor_eq_iff]
    constructor
    · norm_num [Spec.caloriesTotal]
    · norm_num [Spec.caloriesTotal]
  rw [hL, hR]
  intro hcontra
  rw [Except.ok.injEq] at hcontra
  norm_num at hcontra

/-- C4: other-ingredient scaling policy on the import path — a recipe
imported into the builder stores `should_scale = True` regardless of unit,
so an imported "packet" ingredient IS multiplied by the scale factor
(amount 5, factor 2 displays 10), violating the spec's unit veto; the
manual add path correctly refuses to mark a "packet" ingredient scalable
(amount 5, factor 2 displays 5 even with the opt-in checkbox set). -/
theorem imported_packet_ingredient_is_scaled :
    (App.importOtherIngredient "Irish Moss" 5 .packet).should_scale = true ∧
    App.scaledOtherAmount (App.importOtherIngredient "Irish Moss" 5 .packet) 2 = 10 ∧
    App.scaledOtherAmount (App.addOtherIngredient "Irish Moss" 5 .packet true) 2 = 5 := by
  refine ⟨rfl, ?_, ?_⟩
  · unfold App.scaledOtherAmount App.importOtherIngredient
    rw [if_pos rfl]
    rw [pyRound_eq_of_lt_half 3 _ 10000 (by norm_num) (by norm_num)]
    norm_num
  · unfold App.scaledOtherAmount App.addOtherIngredient
    rw [if_neg (by decide)]
    rw [pyRound_eq_of_lt_half 3 _ 5000 (by norm_num) (by norm_num)]
    norm_num

/-- C8 (amended): water-volume degenerate case — whenever the total grain
weight is 0 or the final volume is ≤ 0, the mash, sparge and pre-boil
volumes are 0 and no grain-absorption or boil-off figure is produced, but
the "insufficient input" warning is shown exactly when the total grain
weight is 0 (not when only the final volume is degenerate). -/
theorem water_volumes_degenerate (total_grain_weight final_volume ratio : ℚ)
    (h : total_grain_weight = 0 ∨ final_volume ≤ 0) :
    (App.waterVolumes total_grain_weight final_volume ratio).mash_volume = 0 ∧
    (App.waterVolumes total_grain_weight final_volume ratio).sparge_volume = 0 ∧
    (App.waterVolumes total_grain_weight final_volume ratio).pre_boil_volume = 0 ∧
    (App.waterVolumes total_grain_weight final_volume ratio).grain_absorption = none ∧
    (App.waterVolumes total_grain_weight final_volume ratio).boil_off_volume = none ∧
    ((App.waterVolumes total_grain_weight final_volume ratio).insufficient_input_warning
      ↔ total_grain_weight = 0) := by
  have hc : ¬(0 < total_grain_weight ∧ 0 < final_volume) := by
    rintro ⟨h1, h2⟩
    rcases h with h | h
    · rw [h] at h1
      exact lt_irrefl 0 h1
    · linarith
  rw [App.waterVolumes, if_neg hc]
  exact ⟨rfl, rfl, rfl, rfl, rfl, Iff.rfl⟩

/-- C8 witness: an empty grain bill with final volume 10 L produces zero
volumes and shows the warning. -/
theorem water_volumes_degenerate_witness :
    ((0 : ℚ) = 0 ∨ (10 : ℚ) ≤ 0) ∧
    ((App.waterVolumes 0 10 2.5).mash_volume = 0 ∧
     (App.waterVolumes 0 10 2.5).sparge_volume = 0 ∧
     (App.waterVolumes 0 10 2.5).pre_boil_volume = 0 ∧
     (App.waterVolumes 0 10 2.5).grain_absorption = none ∧
     (App.waterVolumes 0 10 2.5).boil_off_volume = none ∧
     ((App.waterVolumes 0 10 2.5).insufficient_input_warning ↔ (0 : ℚ) = 0)) :=
  ⟨Or.inl rfl, water_volumes_degenerate 0 10 2.5 (Or.inl rfl)⟩

/-- C8 counterexample: with 5 kg of grain and final volume 0 the degenerate
branch zeroes the volumes but the "insufficient input" warning is NOT
shown, contradicting the claim that the signal is produced whenever
finalVolume ≤ 0. -/
theorem water_warning_missing_for_zero_final_volume :
    (App.waterVolumes 5 0 2.5).mash_volume = 0 ∧
    (App.waterVolumes 5 0 2.5).sparge_volume = 0 ∧
    ¬ (App.waterVolumes 5 0 2.5).insufficient_input_warning := by
  rw [App.waterVolumes, if_neg (by norm_num)]
  refine ⟨rfl, rfl, ?_⟩
  intro h
  norm_num at h

section IbuLemmas

/-- Multiplying the positive constant part of an IBU contribution by the
boil-time term is strictly monotone in boil time and bounded by the
constant itself (the limit of the boil-time term is 1). -/
lemma boil_term_mono_and_ceiling (C t₁ t₂ : ℝ) (hC : 0 < C) (ht : t₁ < t₂) :
    C * (1 - Real.exp (-0.04 * t₁)) < C * (1 - Real.exp (-0.04 * t₂)) ∧
    C * (1 - Real.exp (-0.04 * t₂)) < C := by
  have h1 : Real.exp (-0.04 * t₂) < Real.exp (-0.04 * t₁) :=
    Real.exp_lt_exp.mpr (by linarith)
  have h2 : 0 < Real.exp (-0.04 * t₂) := Real.exp_pos _
  constructor
  · exact mul_lt_mul_of_pos_left (by linarith) hC
  · nlinarith

/-- The bigness factor is positive for every og. -/
lemma bigness_factor_pos (og : ℝ) : 0 < Calculations.bigness_factor og :=
  mul_pos (by norm_num) (Real.rpow_pos_of_pos (by norm_num) _)

/-- One Tinseth hop contribution, factored as constant times boil-time term. -/
lemma tinseth_contribution_eq (w a t og B : ℝ) :
    Calculations.ibu_contribution ⟨w, a, t⟩ og B
      = (a / 100 * w * Calculations.bigness_factor og * 10 / (B * 4.15))
          * (1 - Real.exp (-0.04 * t)) := by
  unfold Calculations.ibu_contribution Calculations.utilization
    Calculations.boil_time_factor
  ring

/-- One app-level hop contribution, factored the same way. -/
lemma app_contribution_eq (w a t og B : ℝ) :
    App.ibu_contribution ⟨w, a, t⟩ og B
      = (a * w * Calculations.bigness_factor og * 7490 / (B * 4.15))
          * (1 - Real.exp (-0.04 * t)) := by
  unfold App.ibu_contribution App.ibu_utilization Calculations.bigness_factor
  ring

end IbuLemmas

/-- C5: IBU monotonicity in boil time — for a single hop addition with
positive weight and alpha acid, og above 1.0 and positive batch size,
increasing the boil time strictly increases the unrounded IBU contribution,
and every contribution stays below the ceiling obtained by replacing the
boil-time factor with its limit 1 / 4.15; this holds for both the library
(Tinseth) and the app-level contribution. -/
theorem ibu_contribution_monotone_and_bounded (w a og B t₁ t₂ : ℝ)
    (hw : 0 < w) (ha : 0 < a) (_hog : 1 < og) (hB : 0 < B) (ht : t₁ < t₂) :
    (Calculations.ibu_contribution ⟨w, a, t₁⟩ og B
        < Calculations.ibu_contribution ⟨w, a, t₂⟩ og B ∧
      Calculations.ibu_contribution ⟨w, a, t₂⟩ og B
        < a / 100 * w * (Calculations.bigness_factor og * (1 / 4.15)) * 10 / B) ∧
    (App.ibu_contribution ⟨w, a, t₁⟩ og B < App.ibu_contribution ⟨w, a, t₂⟩ og B ∧
      App.ibu_contribution ⟨w, a, t₂⟩ og B
        < a * w * (Calculations.bigness_factor og * (1 / 4.15)) * 7490 / B) := by
  have hbg := bigness_factor_pos og
  constructor
  · have hC : 0 < a / 100 * w * Calculations.bigness_factor og * 10 / (B * 4.15) := by
      positivity
    obtain ⟨hmono, hceil⟩ := boil_term_mono_and_ceiling _ t₁ t₂ hC ht
    rw [tinseth_contribution_eq, tinseth_contribution_eq]
    refine ⟨hmono, ?_⟩
    calc _ < a / 100 * w * Calculations.bigness_factor og * 10 / (B * 4.15) := hceil
    _ = a / 100 * w * (Calculations.bigness_factor og * (1 / 4.15)) * 10 / B := by
        ring
  · have hC : 0 < a * w * Calculations.bigness_factor og * 7490 / (B * 4.15) := by
      positivity
    obtain ⟨hmono, hceil⟩ := boil_term_mono_and_ceiling _ t₁ t₂ hC ht
    rw [app_contribution_eq, app_contribution_eq]
    refine ⟨hmono, ?_⟩
    calc _ < a * w * Calculations.bigness_factor og * 7490 / (B * 4.15) := hceil
    _ = a * w * (Calculations.bigness_factor og * (1 / 4.15)) * 7490 / B := by
        ring

/-- C5 witness: 100 g at 10 % alpha in 19 L at og 1.05, boil times 15 and
60 minutes. -/
theorem ibu_contribution_monotone_witness :
    (0 : ℝ) < 100 ∧ (0 : ℝ) < 10 ∧ (1 : ℝ) < 1.05 ∧ (0 : ℝ) < 19 ∧ (15 : ℝ) < 60 ∧
    ((Calculations.ibu_contribution ⟨100, 10, 15⟩ 1.05 19
        < Calculations.ibu_contribution ⟨100, 10, 60⟩ 1.05 19 ∧
      Calculations.ibu_contribution ⟨100, 10, 60⟩ 1.05 19
        < 10 / 100 * 100 * (Calculations.bigness_factor 1.05 * (1 / 4.15)) * 10 / 19) ∧
     (App.ibu_contribution ⟨100, 10, 15⟩ 1.05 19
        < App.ibu_contribution ⟨100, 10, 60⟩ 1.05 19 ∧
      App.ibu_contribution ⟨100, 10, 60⟩ 1.05 19
        < 10 * 100 * (Calculations.bigness_factor 1.05 * (1 / 4.15)) * 7490 / 19)) :=
  ⟨by norm_num, by norm_num, by norm_num, by norm_num, by norm_num,
    ibu_contribution_monotone_and_bounded 100 10 1.05 19 15 60
      (by norm_num) (by norm_num) (by norm_num) (by norm_num) (by norm_num)⟩

section SrmLemmas

/-- The kg-to-lb factor distributes out of the Morey colour sum. -/
lemma morey_sum_factor (grain_bill : List SrmGrain) :
    (grain_bill.map fun grain => grain.weight * 2.20462 * grain.lovibond).sum
      = 2.20462 * (grain_bill.map fun grain => grain.weight * grain.lovibond).sum := by
  induction grain_bill with
  | nil => simp
  | cons g t ih =>
      simp only [List.map_cons, List.sum_cons] at *
      rw [ih]
      ring

end SrmLemmas

/-- C2 (amended): the two SRM computation paths are NOT equivalent — the
conversion factors do not cancel: for every grain bill and positive batch
size, the imperial-conversion MCU equals the direct-metric MCU multiplied
by 2.20462 / 0.264172 ≈ 8.3454, so the Morey SRM values agree only when
the MCU is zero. -/
theorem morey_mcu_is_scaled_app_mcu (grain_bill : List SrmGrain) (batch_size : ℝ)
    (_hB : 0 < batch_size) :
    Calculations.morey_mcu grain_bill batch_size
      = (2.20462 / 0.264172) * App.srm_mcu grain_bill batch_size := by
  unfold Calculations.morey_mcu App.srm_mcu
  rw [morey_sum_factor, div_mul_div_comm, mul_comm batch_size (0.264172 : ℝ)]

/-- C2 amended witness: 1 kg at 1 °L in 1 L. -/
theorem morey_mcu_is_scaled_app_mcu_witness :
    (0 : ℝ) < 1 ∧
    Calculations.morey_mcu [{ weight := 1, lovibond := 1 }] 1
      = (2.20462 / 0.264172) * App.srm_mcu [{ weight := 1, lovibond := 1 }] 1 :=
  ⟨by norm_num, morey_mcu_is_scaled_app_mcu [{ weight := 1, lovibond := 1 }] 1 (by norm_num)⟩

/-- C2 counterexample: for 1 kg at 1 °L in 1 L the direct-metric path
returns SRM 1.5 while the imperial-conversion path returns at least 4
(its MCU is ≈ 8.345, not 1), so the two paths do not agree. -/
theorem srm_paths_differ_at_unit_input :
    App.calculate_srm [{ weight := 1, lovibond := 1 }] 1
      ≠ Calculations.calculate_srm_morey [{ weight := 1, lovibond := 1 }] 1 := by
  have e_app : App.calculate_srm [{ weight := 1, lovibond := 1 }] 1 = 15 / 10 ^ 1 := by
    have e_mcu : App.srm_mcu [{ weight := 1, lovibond := 1 }] 1 = 1 := by
      simp [App.srm_mcu]
    unfold App.calculate_srm
    rw [e_mcu, Real.one_rpow, mul_one]
    rw [pyRound_eq_of_half_lt 1 _ 14 (by norm_num) (by norm_num)]
    norm_num
  have hm : (8 : ℝ) ≤ Calculations.morey_mcu [{ weight := 1, lovibond := 1 }] 1 := by
    simp only [Calculations.morey_mcu, List.map_cons, List.map_nil, List.sum_cons,
      List.sum_nil, add_zero]
    rw [le_div_iff₀ (by norm_num)]
    norm_num
  have hr : (2.8 : ℝ)
      ≤ Calculations.morey_mcu [{ weight := 1, lovibond := 1 }] 1 ^ (0.6859 : ℝ) := by
    have h1 : Calculations.morey_mcu [{ weight := 1, lovibond := 1 }] 1 ^ ((1 : ℝ) / 2)
        ≤ Calculations.morey_mcu [{ weight := 1, lovibond := 1 }] 1 ^ (0.6859 : ℝ) :=
      Real.rpow_le_rpow_of_exponent_le (by linarith) (by norm_num)
    have h2 : (2.8 : ℝ)
        ≤ Calculations.morey_mcu [{ weight := 1, lovibond := 1 }] 1 ^ ((1 : ℝ) / 2) := by
      rw [← Real.sqrt_eq_rpow]
      rw [Real.le_sqrt (by norm_num) (by linarith)]
      nlinarith [hm]
    linarith
  have hlow : (4 : ℝ)
      ≤ Calculations.calculate_srm_morey [{ weight := 1, lovibond := 1 }] 1 := by
    unfold Calculations.calculate_srm_morey
    have hp := le_pyRound 1
      (1.4922 * Calculations.morey_mcu [{ weight := 1, lovibond := 1 }] 1 ^ (0.6859 : ℝ))
    nlinarith [hr, hp]
  rw [e_app]
  intro hcontra
  rw [← hcontra] at hlow
  norm_num at hlow

/-- C3: the two IBU implementations are not numerically equivalent — there
is a hop addition with positive weight, alpha acid and boil time, an og
above 1.0 and a positive batch size on which the app's 7490-based formula
and the library's 10 × alphaAcid / 100 formula return different IBU values
(the unrounded results differ by a factor of 74900). -/
theorem ibu_implementations_differ :
    ∃ (hop : Hop) (og batch_size : ℝ),
      0 < hop.weight ∧ 0 < hop.alpha_acid ∧ 0 < hop.time ∧ 1 < og ∧ 0 < batch_size ∧
      App.calculate_ibu [hop] og batch_size
        ≠ Calculations.calculate_ibu_tinseth [hop] og batch_size := by
  refine ⟨⟨100, 10, 60⟩, 1.05, 1, by norm_num, by norm_num, by norm_num, by norm_num,
    by norm_num, ?_⟩
  have hb0 : (0 : ℝ) < (0.000125 : ℝ) ^ ((1.05 : ℝ) - 1.0) :=
    Real.rpow_pos_of_pos (by norm_num) _
  have hb_lo : (0.000125 : ℝ) ≤ (0.000125 : ℝ) ^ ((1.05 : ℝ) - 1.0) := by
    have h : (0.000125 : ℝ) ^ (1 : ℝ) ≤ (0.000125 : ℝ) ^ ((1.05 : ℝ) - 1.0) :=
      Real.rpow_le_rpow_of_exponent_ge (by norm_num) (by norm_num) (by norm_num)
    rw [Real.rpow_one] at h
    exact h
  have hb1 : (0.000125 : ℝ) ^ ((1.05 : ℝ) - 1.0) ≤ 1 :=
    Real.rpow_le_one (by norm_num) (by norm_num) (by norm_num)
  have hbg0 : (0 : ℝ) < Calculations.bigness_factor 1.05 := bigness_factor_pos 1.05
  have hbg_lo : (0.00020625 : ℝ) ≤ Calculations.bigness_factor 1.05 := by
    unfold Calculations.bigness_factor
    linarith
  have hbg_hi : Calculations.bigness_factor 1.05 ≤ 1.65 := by
    unfold Calculations.bigness_factor
    linarith
  have hE_pos : (0 : ℝ) < Real.exp (-0.04 * (60 : ℝ)) := Real.exp_pos _
  have hE_hi : Real.exp (-0.04 * (60 : ℝ)) ≤ 1 / 2 := by
    have h1 : (2 : ℝ) ≤ Real.exp 2.4 := by linarith [Real.add_one_le_exp (2.4 : ℝ)]
    have h2 : Real.exp (-0.04 * (60 : ℝ)) = (Real.exp 2.4)⁻¹ := by
      rw [show (-0.04 * (60 : ℝ)) = -(2.4 : ℝ) by norm_num, Real.exp_neg]
    have hpos := Real.exp_pos (2.4 : ℝ)
    have hid : Real.exp 2.4 * (Real.exp 2.4)⁻¹ = 1 := mul_inv_cancel₀ (ne_of_gt hpos)
    rw [h2]
    nlinarith [hid, inv_pos.mpr hpos]
  have hone_lo : (1 / 2 : ℝ) ≤ 1 - Real.exp (-0.04 * (60 : ℝ)) := by linarith
  have hone_hi : 1 - Real.exp (-0.04 * (60 : ℝ)) ≤ 1 := by linarith
  have hprod_lo : (0.000103125 : ℝ)
      ≤ Calculations.bigness_factor 1.05 * (1 - Real.exp (-0.04 * (60 : ℝ))) := by
    calc (0.000103125 : ℝ) = 0.00020625 * (1 / 2) := by norm_num
    _ ≤ Calculations.bigness_factor 1.05 * (1 - Real.exp (-0.04 * (60 : ℝ))) :=
        mul_le_mul hbg_lo hone_lo (by norm_num) (le_of_lt hbg0)
  have hprod_hi : Calculations.bigness_factor 1.05 * (1 - Real.exp (-0.04 * (60 : ℝ)))
      ≤ 1.65 := by
    calc Calculations.bigness_factor 1.05 * (1 - Real.exp (-0.04 * (60 : ℝ)))
        ≤ 1.65 * 1 := mul_le_mul hbg_hi hone_hi (by linarith) (by norm_num)
    _ = 1.65 := by norm_num
  have happ_lo : (180 : ℝ) ≤ App.ibu_contribution ⟨100, 10, 60⟩ 1.05 1 := by
    rw [app_contribution_eq]
    have he : (10 : ℝ) * 100 * Calculations.bigness_factor 1.05 * 7490 / (1 * 4.15)
          * (1 - Real.exp (-0.04 * (60 : ℝ)))
        = (7490000 / 4.15)
          * (Calculations.bigness_factor 1.05 * (1 - Real.exp (-0.04 * (60 : ℝ)))) := by
      ring
    rw [he]
    linarith
  have hbin_hi : Calculations.ibu_contribution ⟨100, 10, 60⟩ 1.05 1 ≤ 40 := by
    rw [tinseth_contribution_eq]
    have he : (10 : ℝ) / 100 * 100 * Calculations.bigness_factor 1.05 * 10 / (1 * 4.15)
          * (1 - Real.exp (-0.04 * (60 : ℝ)))
        = (100 / 4.15)
          * (Calculations.bigness_factor 1.05 * (1 - Real.exp (-0.04 * (60 : ℝ)))) := by
      ring
    rw [he]
    linarith
  have eA : App.calculate_ibu [⟨100, 10, 60⟩] 1.05 1
      = pyRound 1 (App.ibu_contribution ⟨100, 10, 60⟩ 1.05 1) := by
    unfold App.calculate_ibu
    simp only [List.map_cons, List.map_nil, List.sum_cons, List.sum_nil, add_zero]
  have eT : Calculations.calculate_ibu_tinseth [⟨100, 10, 60⟩] 1.05 1
      = pyRound 1 (Calculations.ibu_contribution ⟨100, 10, 60⟩ 1.05 1) := by
    unfold Calculations.calculate_ibu_tinseth
    simp only [List.map_cons, List.map_nil, List.sum_cons, List.sum_nil, add_zero]
  have h5 := le_pyRound 1 (App.ibu_contribution ⟨100, 10, 60⟩ 1.05 1)
  have h6 := pyRound_le 1 (Calculations.ibu_contribution ⟨100, 10, 60⟩ 1.05 1)
  rw [eA, eT]
  intro hcontra
  rw [hcontra] at h5
  linarith
